import Mathlib

/-!
Shallow embedding of the worker/process supervision engine of the
seznam/shelter repository, for checking its specification.

Embedded source:
  - shelter/commands/runserver.py: `ProcessWrapper`, `TornadoProcess`,
    `RunServer.start_processes`
  - shelter/core/processes.py: `Worker`, `start_workers`, `BaseProcess`

Modelling conventions:
  - A `multiprocessing.Process` / `threading.Thread` handle is a `Handle`
    carrying its pid and its exit code (`none` while still running).
  - Real time is discretised into poll ticks: one tick is one iteration of
    a `while ...: time.sleep(...)` polling loop.  A Python `timeout`
    (float seconds, truthiness-tested with `if timeout:`) is modelled as
    `Option Nat` counting the polls the timeout window allows; `none` is
    Python `None` and `some 0` is Python `0`/`0.0` (both falsy).
  - Successive reads of the spawned handle's readiness flag are a time
    series `ready : Nat → Bool` (the value read at poll tick `i`).
  - Unbounded waiting loops take observation fuel; exhausting the fuel
    yields `stillWaiting`, meaning the call has not returned yet.
  - Raised exceptions become `Except` errors / explicit outcome values.
-/

namespace Shelter

/-- An execution handle (`multiprocessing.Process`): its pid and its exit
code, `none` while the handle is still running. -/
structure Handle where
  pid : Nat
  exitcode : Option Int
deriving Repr, DecidableEq

/-- Supervisor-side view of one worker: its name and its current execution
handle (`None` before the first start).  This is the state shared by
`shelter.core.processes.Worker` and the loop-relevant part of
`shelter.commands.runserver.ProcessWrapper`. -/
structure Worker where
  name : String
  process : Option Handle
deriving Repr, DecidableEq

/-- `Worker.has_started`: true once a handle object exists. -/
def Worker.has_started (w : Worker) : Bool :=
  w.process.isSome

/-- `Worker.is_alive`: the handle exists and has not exited yet. -/
def Worker.is_alive (w : Worker) : Bool :=
  match w.process with
  | none => false
  | some h => h.exitcode.isNone

/-- `Worker.pid`: pid of the handle, or `none` if never started. -/
def Worker.pid (w : Worker) : Option Nat :=
  w.process.map Handle.pid

/-- `Worker.exitcode`: exit code of the current handle (`none` both when
never started and while still running; the supervisor loop only reads it
after checking `has_started`). -/
def Worker.exitcode (w : Worker) : Option Int :=
  w.process.bind Handle.exitcode

/-- `SIGNALS_TO_NAMES_DICT`: the signal-number → symbolic-name table built
in both runserver.py and processes.py by
`{getattr(signal, n): n for n in dir(signal) if n.startswith('SIG') and '_' not in n}`
on Linux.  `dir(signal)` is alphabetically sorted and the comprehension
keeps the last name assigned to a number, so 6 is "SIGIOT" (over
SIGABRT), 17 is "SIGCLD" (over SIGCHLD) and 29 is "SIGPOLL" (over
SIGIO).  The real-time range other than `SIGRTMIN` (34) and `SIGRTMAX`
(64) has no named attributes, so numbers like 35 are absent. -/
def SIGNALS_TO_NAMES_DICT : List (Nat × String) :=
  [(1, "SIGHUP"), (2, "SIGINT"), (3, "SIGQUIT"), (4, "SIGILL"),
   (5, "SIGTRAP"), (6, "SIGIOT"), (7, "SIGBUS"), (8, "SIGFPE"),
   (9, "SIGKILL"), (10, "SIGUSR1"), (11, "SIGSEGV"), (12, "SIGUSR2"),
   (13, "SIGPIPE"), (14, "SIGALRM"), (15, "SIGTERM"), (16, "SIGSTKFLT"),
   (17, "SIGCLD"), (18, "SIGCONT"), (19, "SIGSTOP"), (20, "SIGTSTP"),
   (21, "SIGTTIN"), (22, "SIGTTOU"), (23, "SIGURG"), (24, "SIGXCPU"),
   (25, "SIGXFSZ"), (26, "SIGVTALRM"), (27, "SIGPROF"), (28, "SIGWINCH"),
   (29, "SIGPOLL"), (30, "SIGPWR"), (31, "SIGSYS"), (34, "SIGRTMIN"),
   (64, "SIGRTMAX")]

/-- Lookup in `SIGNALS_TO_NAMES_DICT`; a `none` result means the Python
subscript `SIGNALS_TO_NAMES_DICT[n]` raises `KeyError`. -/
def signal_name (n : Nat) : Option String :=
  (SIGNALS_TO_NAMES_DICT.find? (fun e => e.1 == n)).map (fun e => e.2)

/-- One log record emitted by `RunServer.start_processes`. -/
inductive LogEvent where
  | errorExitcode (name : String) (pid : Nat) (code : Int)
  | errorSignal (name : String) (pid : Nat) (signame : String)
  | infoStopped (name : String) (pid : Nat)
  | infoStarted (name : String) (pid : Nat)
  | fatalTooManyRestarts
deriving Repr, DecidableEq

/-- An exception escaping the supervisor loop: the `CommandError` it
raises on budget exhaustion, or the uncaught `KeyError` from
`SIGNALS_TO_NAMES_DICT[abs(exitcode)]` at a signal number with no
entry. -/
inductive LoopError where
  | commandError (msg : String)
  | keyError (key : Nat)
deriving Repr, DecidableEq

/-- Supervisor-loop bookkeeping threaded through `start_processes`:
the shared `max_restarts` counter, a counter indexing the spawn supply,
an observation counter of restart starts (start calls on a worker that
`has_started`), and the log. -/
structure SupSt where
  max_restarts : Int
  spawns : Nat
  restarts : Nat
  log : List LogEvent
deriving Repr, DecidableEq

/-- A `process.start()` call made from inside the supervisor loop: the
factory produces a fresh handle (the `spawn` supply indexed by how many
spawns happened so far) and the old handle is discarded.  The readiness
wait that `ProcessWrapper.start` performs on a first run is modelled
separately by `ProcessWrapper.start` below; at the exit-code level of the
loop state it is not observable. -/
def loopStart (spawn : Nat → Handle) (w : Worker) (s : SupSt) : Worker × SupSt :=
  (⟨w.name, some (spawn s.spawns)⟩,
   { s with
       spawns := s.spawns + 1,
       restarts := if w.has_started then s.restarts + 1 else s.restarts })

/-- The code of `start_processes` that follows the error log for a
non-zero exit: `if not max_restarts:` log fatal and raise
`CommandError("Too many child restarts")`; otherwise `process.start()`,
then decrement `max_restarts` when it is positive. -/
def errorRestart (spawn : Nat → Handle) (w : Worker) (s1 : SupSt) :
    Except (LoopError × SupSt) (Worker × SupSt) :=
  if s1.max_restarts = 0 then
    .error (.commandError "Too many child restarts",
            { s1 with log := .fatalTooManyRestarts :: s1.log })
  else
    let ws2 := loopStart spawn w s1
    let s2 := ws2.2
    let s3 : SupSt :=
      if s2.max_restarts > 0 then
        { s2 with max_restarts := s2.max_restarts - 1 }
      else s2
    .ok (ws2.1, s3)

/-- The body of `RunServer.start_processes` for one element of
`self.processes` during one pass of the inner `for` loop.  The
`Except.error` case is an exception escaping the loop, carrying the
state at raise time: the raised `CommandError` on budget exhaustion, or
the uncaught `KeyError` that `SIGNALS_TO_NAMES_DICT[abs(exitcode)]`
raises — while evaluating the log-call argument, so before any log
record, restart or decrement — when `abs(exitcode)` has no entry. -/
def start_processes_body (spawn : Nat → Handle) (w : Worker) (s : SupSt) :
    Except (LoopError × SupSt) (Worker × SupSt) :=
  if w.is_alive then
    .ok (w, s)
  else if w.has_started then
    match w.exitcode with
    | none => .ok (w, s)
    | some c =>
      if c ≠ 0 then
        let pid := w.pid.getD 0
        if c > 0 then
          errorRestart spawn w { s with log := .errorExitcode w.name pid c :: s.log }
        else
          match signal_name c.natAbs with
          | none => .error (.keyError c.natAbs, s)
          | some nm =>
            errorRestart spawn w { s with log := .errorSignal w.name pid nm :: s.log }
      else
        let pid := w.pid.getD 0
        let s1 : SupSt := { s with log := .infoStopped w.name pid :: s.log }
        let ws2 := loopStart spawn w s1
        let s3 : SupSt :=
          { ws2.2 with
              log := .infoStarted ws2.1.name (ws2.1.pid.getD 0) :: ws2.2.log }
        .ok (ws2.1, s3)
  else
    .ok (loopStart spawn w s)

/-- One full pass of the inner `for process in self.processes` loop; a
raised `CommandError` propagates and skips the remaining workers. -/
def start_processes_tick (spawn : Nat → Handle) :
    List Worker → SupSt → Except (LoopError × SupSt) (List Worker × SupSt)
  | [], s => .ok ([], s)
  | w :: ws, s =>
    match start_processes_body spawn w s with
    | .error e => .error e
    | .ok (w2, s2) =>
      match start_processes_tick spawn ws s2 with
      | .error e => .error e
      | .ok (ws2, s3) => .ok (w2 :: ws2, s3)

/-- `n` iterations of the outer `while 1` loop of `start_processes` (each
iteration: one pass over the workers, then `time.sleep(0.25)`). -/
def start_processes_run (spawn : Nat → Handle) :
    Nat → List Worker → SupSt → Except (LoopError × SupSt) (List Worker × SupSt)
  | 0, ws, s => .ok (ws, s)
  | n + 1, ws, s =>
    match start_processes_tick spawn ws s with
    | .error e => .error e
    | .ok (ws2, s2) => start_processes_run spawn n ws2 s2

/-- Did the loop raise `CommandError`? -/
def outRaised {α : Type} : Except (LoopError × SupSt) (α × SupSt) → Bool
  | .error _ => true
  | .ok _ => false

/-- Message of the raised `CommandError`, if any. -/
def outMsg {α : Type} : Except (LoopError × SupSt) (α × SupSt) → Option String
  | .error (.commandError m, _) => some m
  | .error (.keyError _, _) => none
  | .ok _ => none

/-- Restart counter of the final supervisor state. -/
def outRestarts {α : Type} : Except (LoopError × SupSt) (α × SupSt) → Nat
  | .error (_, s) => s.restarts
  | .ok (_, s) => s.restarts

/-- `max_restarts` budget of the final supervisor state. -/
def outBudget {α : Type} : Except (LoopError × SupSt) (α × SupSt) → Int
  | .error (_, s) => s.max_restarts
  | .ok (_, s) => s.max_restarts

/-- Log of the final supervisor state. -/
def outLog {α : Type} : Except (LoopError × SupSt) (α × SupSt) → List LogEvent
  | .error (_, s) => s.log
  | .ok (_, s) => s.log

/-- Outcome of a `Worker.start` / `ProcessWrapper.start` call:
returned normally, raised `ProcessError` ("is runnig" / "has been already
started"), raised `ProcessError` ("Timeout during start ..."), or is still
blocked inside the readiness-polling loop when the observation fuel ran
out. -/
inductive StartOutcome where
  | ok
  | processErrorRunning
  | processErrorTimeout
  | stillWaiting
deriving Repr, DecidableEq

/-- Python truthiness of the `timeout` argument (`if timeout:`): `None`
and `0` are both falsy. -/
def timeoutTruthy : Option Nat → Bool
  | none => false
  | some t => t != 0

/-- The bounded readiness-polling loop
`while time.time() < stop_time and not self.process.ready: time.sleep(...)`
followed by the final `if not self.process.ready: raise ProcessError`.
`i` is the current poll tick, the second argument the polls left in the
timeout window. -/
def boundedWait (ready : Nat → Bool) : Nat → Nat → StartOutcome
  | i, 0 => if ready i then .ok else .processErrorTimeout
  | i, n + 1 => if ready i then .ok else boundedWait ready (i + 1) n

/-- The unbounded readiness-polling loop
`while not self.process.ready: time.sleep(...)`, observed for `fuel`
polls. -/
def unboundedWait (ready : Nat → Bool) : Nat → Nat → StartOutcome
  | _, 0 => .stillWaiting
  | i, n + 1 => if ready i then .ok else unboundedWait ready (i + 1) n

/-- The readiness-wait block shared by `Worker.start` and
`ProcessWrapper.start`: `if timeout:` selects the bounded wait, otherwise
(also for a falsy `0` timeout) the unbounded wait. -/
def waitPhase (ready : Nat → Bool) (timeout : Option Nat) (fuel : Nat) : StartOutcome :=
  if timeoutTruthy timeout then boundedWait ready 0 (timeout.getD 0)
  else unboundedWait ready 0 fuel

/-- `shelter.core.processes.Worker.start(wait_unless_ready, timeout)`.
`h` is the handle the factory produces; `ready i` is the value of the new
handle's readiness flag at poll tick `i`.  Returns the outcome and the
worker state after the call (unchanged when the "is runnig" `ProcessError`
is raised, since the raise precedes the factory invocation). -/
def Worker.start (w : Worker) (h : Handle) (ready : Nat → Bool)
    (wait_unless_ready : Bool) (timeout : Option Nat) (fuel : Nat) :
    StartOutcome × Worker :=
  if w.is_alive then
    (.processErrorRunning, w)
  else
    let w2 : Worker := { w with process := some h }
    if wait_unless_ready then
      (waitPhase ready timeout fuel, w2)
    else
      (.ok, w2)

/-- `shelter.commands.runserver.ProcessWrapper`: the handle plus the
`wait_unless_ready` / `timeout` configuration captured at construction. -/
structure ProcessWrapper where
  process : Option Handle
  wait_unless_ready : Bool
  timeout : Option Nat
  name : String
deriving Repr, DecidableEq

/-- `ProcessWrapper.has_started`. -/
def ProcessWrapper.has_started (w : ProcessWrapper) : Bool :=
  w.process.isSome

/-- `ProcessWrapper.is_alive`. -/
def ProcessWrapper.is_alive (w : ProcessWrapper) : Bool :=
  match w.process with
  | none => false
  | some h => h.exitcode.isNone

/-- `ProcessWrapper.start()`.  `first_run = not self.has_started` is
computed before the handle is replaced; the readiness wait runs only
`if first_run and self._wait_unless_ready`.  The third component records
whether the readiness-wait block was entered. -/
def ProcessWrapper.start (w : ProcessWrapper) (h : Handle) (ready : Nat → Bool)
    (fuel : Nat) : StartOutcome × ProcessWrapper × Bool :=
  if w.is_alive then
    (.processErrorRunning, w, false)
  else
    let first_run := !w.has_started
    let w2 : ProcessWrapper := { w with process := some h }
    if first_run && w.wait_unless_ready then
      (waitPhase ready w.timeout fuel, w2, true)
    else
      (.ok, w2, false)

/-- State of `BaseProcess.run` (shelter/core/processes.py): the parent pid
recorded at handle creation (`self._parent_pid = os.getpid()`), the shared
readiness flag `self._ready.value`, the `next_loop_time` local, and
whether the `while 1` loop has been left (`break`, after which `run`
returns and the handle exits with status 0). -/
structure BPState where
  parent_pid : Nat
  ready : Bool
  next_loop_time : Nat
  stopped : Bool
deriving Repr, DecidableEq

/-- Environment observed by one iteration of the `while 1` loop of
`BaseProcess.run`: the current `os.getppid()` and `time.time()`. -/
structure BPInput where
  ppid : Nat
  now : Nat
deriving Repr, DecidableEq

/-- `BaseProcess.__init__`: records the creator's pid as parent, readiness
flag `False`, and `run` has not started looping (`next_loop_time = 0`). -/
def bpInit (creator_pid : Nat) : BPState :=
  ⟨creator_pid, false, 0, false⟩

/-- One iteration of the `while 1` loop of `BaseProcess.run`: break when
run in a separate process and `os.getppid()` differs from the recorded
parent pid; otherwise, when the loop time has come, call `loop()`, set the
readiness flag after the first call, and schedule the next loop time; else
`time.sleep(0.1)`. -/
def bpStep (separate_process : Bool) (interval : Nat) (st : BPState)
    (inp : BPInput) : BPState :=
  if st.stopped then
    st
  else if separate_process ∧ inp.ppid ≠ st.parent_pid then
    { st with stopped := true }
  else if st.next_loop_time ≤ inp.now then
    let st1 : BPState :=
      if st.next_loop_time = 0 ∧ st.ready = false then
        { st with ready := true }
      else st
    { st1 with next_loop_time := inp.now + interval }
  else
    st

/-- `BaseProcess.run` driven by a finite trace of observed environments. -/
def bpRun (separate_process : Bool) (interval : Nat) :
    BPState → List BPInput → BPState
  | st, [] => st
  | st, inp :: t => bpRun separate_process interval (bpStep separate_process interval st inp) t

/-- The supervisor-side `BaseProcess.ready` property read
(lock-protected read of `self._ready.value`). -/
def bpReadyRead (st : BPState) : Bool :=
  st.ready

/-- Exit status of the handle running `BaseProcess.run`: status 0 once
`run` has returned (left its loop), none while still running. -/
def bpExitStatus (st : BPState) : Option Int :=
  if st.stopped then some 0 else none

/-- State of a `TornadoProcess` (shelter/commands/runserver.py): recorded
parent pid, the shared readiness flag `self._ready.value`, and whether the
IOLoop is still running (its `run` returns, exiting with status 0, once
the IOLoop stops). -/
structure TPState where
  parent_pid : Nat
  ready : Bool
  ioloop_running : Bool
deriving Repr, DecidableEq

/-- Events processed by the `TornadoProcess` IOLoop: the one-shot
`run_ioloop_callback` that sets the readiness flag, the 250 ms periodic
`check_parent_callback` watchdog tick, and the SIGINT handler. -/
inductive TPEvent where
  | readyCallback
  | checkParent (ppid : Nat)
  | sigint
deriving Repr, DecidableEq

/-- `TornadoProcess.__init__`: parent pid recorded at handle creation,
readiness flag `False`. -/
def tpInit (creator_pid : Nat) : TPState :=
  ⟨creator_pid, false, true⟩

/-- `TornadoProcess.stop`: stop the HTTP server and the IOLoop. -/
def tpStop (st : TPState) : TPState :=
  { st with ioloop_running := false }

/-- One IOLoop event of `TornadoProcess.run`: `run_ioloop_callback` sets
the readiness flag; `check_parent_callback` calls `stop` when
`os.getppid()` differs from the recorded parent pid; SIGINT calls
`stop`. -/
def tpStep (st : TPState) (e : TPEvent) : TPState :=
  match e with
  | .readyCallback => { st with ready := true }
  | .checkParent ppid => if ppid ≠ st.parent_pid then tpStop st else st
  | .sigint => tpStop st

/-- Exit status of the handle running `TornadoProcess.run`: 0 once the
IOLoop has stopped and `run` returned, none while still running. -/
def tpExitStatus (st : TPState) : Option Int :=
  if st.ioloop_running then none else some 0

/-! ### Scenario fixtures and helper lemmas -/

/-- Spawn supply whose every handle has already exited with code 1
(a worker that always crashes). -/
def failSpawn (k : Nat) : Handle :=
  ⟨100 + k, some 1⟩

/-- A worker that was started once (handle `failSpawn 0`) and has exited
with code 1. -/
def alwaysFailWorker : Worker :=
  ⟨"worker", some (failSpawn 0)⟩

/-- Fresh supervisor bookkeeping with the given restart budget (one handle
already spawned, no restarts yet, empty log). -/
def budgetSt (mr : Int) : SupSt :=
  ⟨mr, 1, 0, []⟩

/-- Constant spawn supply for the unlimited-budget scenario: every handle
is `⟨7, exited 1⟩`. -/
def c4spawn : Nat → Handle :=
  fun _ => ⟨7, some 1⟩

/-- The corresponding started-and-crashed worker. -/
def c4worker : Worker :=
  ⟨"w", some ⟨7, some 1⟩⟩

lemma c4_body_step (s : SupSt) (hmr : s.max_restarts = -1) :
    start_processes_body c4spawn c4worker s =
      .ok (c4worker,
           ⟨-1, s.spawns + 1, s.restarts + 1,
            .errorExitcode "w" 7 1 :: s.log⟩) := by
  obtain ⟨mr, sp, rs, lg⟩ := s
  simp only at hmr
  subst hmr
  rfl

lemma c4_run_ok (n : Nat) :
    ∀ s : SupSt, s.max_restarts = -1 →
      ∃ s2 : SupSt,
        start_processes_run c4spawn n [c4worker] s = .ok ([c4worker], s2) ∧
          s2.max_restarts = -1 ∧ s2.restarts = s.restarts + n := by
  induction n with
  | zero =>
    intro s h
    exact ⟨s, rfl, h, rfl⟩
  | succ n ih =>
    intro s h
    obtain ⟨s2, h2, hmr2, hrs2⟩ :=
      ih ⟨-1, s.spawns + 1, s.restarts + 1, .errorExitcode "w" 7 1 :: s.log⟩ rfl
    refine ⟨s2, ?_, hmr2, ?_⟩
    · show start_processes_run c4spawn (n + 1) [c4worker] s = _
      simp only [start_processes_run, start_processes_tick, c4_body_step s h, h2]
    · simp only at hrs2
      omega

/-! ### Claims -/

/-- C1: with restart budget 2 and a worker whose every exit has code 1,
the supervisor loop restarts the worker exactly twice more after the first
observed exit (two ticks: no raise, 2 restarts, budget exhausted to 0),
and on the third observed exit it raises the `CommandError` failure
"Too many child restarts" instead of restarting (still 2 restarts). -/
theorem c1_restart_budget :
    outRaised (start_processes_run failSpawn 2 [alwaysFailWorker] (budgetSt 2)) = false ∧
    outRestarts (start_processes_run failSpawn 2 [alwaysFailWorker] (budgetSt 2)) = 2 ∧
    outBudget (start_processes_run failSpawn 2 [alwaysFailWorker] (budgetSt 2)) = 0 ∧
    outRaised (start_processes_run failSpawn 3 [alwaysFailWorker] (budgetSt 2)) = true ∧
    outMsg (start_processes_run failSpawn 3 [alwaysFailWorker] (budgetSt 2)) =
      some "Too many child restarts" ∧
    outRestarts (start_processes_run failSpawn 3 [alwaysFailWorker] (budgetSt 2)) = 2 := by
  decide

/-- C4: with restart budget -1 (unlimited), any number of observed failing
exits never takes the budget-exhaustion branch and restarts the worker
every time (after `n` ticks: no raise, `n` restarts, budget still -1). -/
theorem c4_unlimited_budget (n : Nat) :
    outRaised (start_processes_run c4spawn n [c4worker] (budgetSt (-1))) = false ∧
    outRestarts (start_processes_run c4spawn n [c4worker] (budgetSt (-1))) = n ∧
    outBudget (start_processes_run c4spawn n [c4worker] (budgetSt (-1))) = -1 := by
  obtain ⟨s2, h2, hmr, hrs⟩ := c4_run_ok n (budgetSt (-1)) rfl
  rw [h2]
  refine ⟨rfl, ?_, hmr⟩
  simpa [budgetSt, outRestarts] using hrs

lemma body_clean_exit (name : String) (pid : Nat) (s : SupSt) (spawn : Nat → Handle) :
    start_processes_body spawn ⟨name, some ⟨pid, some 0⟩⟩ s =
      .ok (⟨name, some (spawn s.spawns)⟩,
           ⟨s.max_restarts, s.spawns + 1, s.restarts + 1,
            .infoStarted name (spawn s.spawns).pid ::
              .infoStopped name pid :: s.log⟩) :=
  rfl

lemma body_pos_exit (name : String) (pid : Nat) (c : Int) (s : SupSt)
    (spawn : Nat → Handle) (hc : 0 < c) (hmr : s.max_restarts ≠ 0) :
    start_processes_body spawn ⟨name, some ⟨pid, some c⟩⟩ s =
      .ok (⟨name, some (spawn s.spawns)⟩,
           ⟨if 0 < s.max_restarts then s.max_restarts - 1 else s.max_restarts,
            s.spawns + 1, s.restarts + 1,
            .errorExitcode name pid c :: s.log⟩) := by
  have hne : c ≠ 0 := by omega
  simp [start_processes_body, errorRestart, Worker.is_alive, Worker.has_started,
    Worker.exitcode, Worker.pid, loopStart, hne, hc, hmr]
  split_ifs <;> rfl

lemma body_neg_exit (name : String) (pid : Nat) (c : Int) (nm : String) (s : SupSt)
    (spawn : Nat → Handle) (hc : c < 0) (hsig : signal_name c.natAbs = some nm)
    (hmr : s.max_restarts ≠ 0) :
    start_processes_body spawn ⟨name, some ⟨pid, some c⟩⟩ s =
      .ok (⟨name, some (spawn s.spawns)⟩,
           ⟨if 0 < s.max_restarts then s.max_restarts - 1 else s.max_restarts,
            s.spawns + 1, s.restarts + 1,
            .errorSignal name pid nm :: s.log⟩) := by
  have hne : c ≠ 0 := by omega
  have hnpos : ¬ (0 : Int) < c := by omega
  simp [start_processes_body, errorRestart, Worker.is_alive, Worker.has_started,
    Worker.exitcode, Worker.pid, loopStart, hne, hnpos, hsig, hmr]
  split_ifs <;> rfl

lemma body_neg_keyerror (name : String) (pid : Nat) (c : Int) (s : SupSt)
    (spawn : Nat → Handle) (hc : c < 0) (hsig : signal_name c.natAbs = none) :
    start_processes_body spawn ⟨name, some ⟨pid, some c⟩⟩ s =
      .error (.keyError c.natAbs, s) := by
  have hne : c ≠ 0 := by omega
  have hnpos : ¬ (0 : Int) < c := by omega
  simp [start_processes_body, Worker.is_alive, Worker.has_started,
    Worker.exitcode, Worker.pid, hne, hnpos, hsig]

/-- C2 counterexample: at exit code -35 (a real-time signal whose number
has no entry in `SIGNALS_TO_NAMES_DICT`) the dict subscript raises an
uncaught `KeyError` while the log-call argument is evaluated: the
supervisor loop aborts with no error log record and no restart — so "a
negative exit code is logged as an error referencing the symbolic name of
signal abs(code) and the worker is restarted" fails at this concrete
input. -/
theorem c2_counterexample :
    start_processes_body (fun k => ⟨50 + k, none⟩) ⟨"w", some ⟨4, some (-35)⟩⟩
        ⟨-1, 0, 0, []⟩ =
      .error (.keyError 35, ⟨-1, 0, 0, []⟩) ∧
    outRestarts (start_processes_body (fun k => ⟨50 + k, none⟩) ⟨"w", some ⟨4, some (-35)⟩⟩
      ⟨-1, 0, 0, []⟩) = 0 ∧
    outLog (start_processes_body (fun k => ⟨50 + k, none⟩) ⟨"w", some ⟨4, some (-35)⟩⟩
      ⟨-1, 0, 0, []⟩) = [] := by
  refine ⟨?_, by decide, by decide⟩
  rfl

/-- C2 amended: the supervisor loop's handling of a worker observed dead
(handle present, exit code set): exit code 0 logs the informational
"stopped" record and restarts; a positive code logs the error record
carrying the numeric code and restarts; a negative code whose signal
number `abs(code)` has an entry in `SIGNALS_TO_NAMES_DICT` logs the error
record carrying that symbolic name and restarts (the error branches under
a non-exhausted budget); a negative code with no table entry raises an
uncaught `KeyError`, aborting the loop with no log record, no restart and
no decrement. -/
theorem c2_exit_classification (name : String) (pid : Nat) (c : Int) (nm : String)
    (s : SupSt) (spawn : Nat → Handle) :
    (c = 0 →
      start_processes_body spawn ⟨name, some ⟨pid, some c⟩⟩ s =
        .ok (⟨name, some (spawn s.spawns)⟩,
             ⟨s.max_restarts, s.spawns + 1, s.restarts + 1,
              .infoStarted name (spawn s.spawns).pid ::
                .infoStopped name pid :: s.log⟩)) ∧
    (0 < c → s.max_restarts ≠ 0 →
      start_processes_body spawn ⟨name, some ⟨pid, some c⟩⟩ s =
        .ok (⟨name, some (spawn s.spawns)⟩,
             ⟨if 0 < s.max_restarts then s.max_restarts - 1 else s.max_restarts,
              s.spawns + 1, s.restarts + 1,
              .errorExitcode name pid c :: s.log⟩)) ∧
    (c < 0 → signal_name c.natAbs = some nm → s.max_restarts ≠ 0 →
      start_processes_body spawn ⟨name, some ⟨pid, some c⟩⟩ s =
        .ok (⟨name, some (spawn s.spawns)⟩,
             ⟨if 0 < s.max_restarts then s.max_restarts - 1 else s.max_restarts,
              s.spawns + 1, s.restarts + 1,
              .errorSignal name pid nm :: s.log⟩)) ∧
    (c < 0 → signal_name c.natAbs = none →
      start_processes_body spawn ⟨name, some ⟨pid, some c⟩⟩ s =
        .error (.keyError c.natAbs, s)) := by
  refine ⟨?_, ?_, ?_, ?_⟩
  · intro h
    subst h
    exact body_clean_exit name pid s spawn
  · intro hc hmr
    exact body_pos_exit name pid c s spawn hc hmr
  · intro hc hsig hmr
    exact body_neg_exit name pid c nm s spawn hc hsig hmr
  · intro hc hsig
    exact body_neg_keyerror name pid c s spawn hc hsig

/-- Witness for C2's amended theorem: concrete instances of the four
branches (exit codes 0, 5, -2 with `signal_name 2 = some "SIGINT"`, and
-35 with no table entry; budget -1). -/
theorem c2_exit_classification_witness :
    (start_processes_body (fun k => ⟨20 + k, none⟩) ⟨"w", some ⟨4, some 0⟩⟩ ⟨-1, 0, 0, []⟩ =
      .ok (⟨"w", some ⟨20, none⟩⟩,
           ⟨-1, 1, 1, .infoStarted "w" 20 :: .infoStopped "w" 4 :: []⟩)) ∧
    (start_processes_body (fun k => ⟨20 + k, none⟩) ⟨"w", some ⟨4, some 5⟩⟩ ⟨-1, 0, 0, []⟩ =
      .ok (⟨"w", some ⟨20, none⟩⟩,
           ⟨-1, 1, 1, .errorExitcode "w" 4 5 :: []⟩)) ∧
    (start_processes_body (fun k => ⟨20 + k, none⟩) ⟨"w", some ⟨4, some (-2)⟩⟩ ⟨-1, 0, 0, []⟩ =
      .ok (⟨"w", some ⟨20, none⟩⟩,
           ⟨-1, 1, 1, .errorSignal "w" 4 "SIGINT" :: []⟩)) ∧
    (start_processes_body (fun k => ⟨20 + k, none⟩) ⟨"w", some ⟨4, some (-35)⟩⟩ ⟨-1, 0, 0, []⟩ =
      .error (.keyError 35, ⟨-1, 0, 0, []⟩)) := by
  have h0 := (c2_exit_classification "w" 4 0 "SIGINT" ⟨-1, 0, 0, []⟩
    (fun k => ⟨20 + k, none⟩)).1 rfl
  have h5 := (c2_exit_classification "w" 4 5 "SIGINT" ⟨-1, 0, 0, []⟩
    (fun k => ⟨20 + k, none⟩)).2.1 (by decide) (by decide)
  have hs := (c2_exit_classification "w" 4 (-2) "SIGINT" ⟨-1, 0, 0, []⟩
    (fun k => ⟨20 + k, none⟩)).2.2.1 (by decide) (by decide) (by decide)
  have hk := (c2_exit_classification "w" 4 (-35) "SIGINT" ⟨-1, 0, 0, []⟩
    (fun k => ⟨20 + k, none⟩)).2.2.2 (by decide) (by decide)
  refine ⟨?_, ?_, ?_, ?_⟩
  · simpa using h0
  · simpa using h5
  · simpa using hs
  · simpa using hk

/-- C3 counterexample: the claim says every restart decrements the budget
when it is finite positive; but a worker that exited cleanly (code 0) is
restarted (restart counter 0 → 1) while the positive budget 5 stays 5
(not 5 - 1). -/
theorem c3_counterexample :
    outRestarts (start_processes_body (fun k => ⟨10 + k, none⟩) ⟨"w", some ⟨3, some 0⟩⟩
        ⟨5, 0, 0, []⟩) = 1 ∧
    (0 : Int) < 5 ∧
    outBudget (start_processes_body (fun k => ⟨10 + k, none⟩) ⟨"w", some ⟨3, some 0⟩⟩
        ⟨5, 0, 0, []⟩) = 5 ∧
    (5 : Int) ≠ 5 - 1 := by
  decide

/-- C3 amended: the restart budget is one shared counter across all
workers (two crashed workers processed in one tick both decrement the
same counter); each restart the loop performs in the error/signaled
branch — a positive exit code, or a negative one whose signal number is
in the name table (otherwise the `KeyError` aborts the loop before any
restart) — decrements it by one when it is finite positive; a restart of
a cleanly exited worker (code 0) does not decrement it. -/
theorem c3_shared_budget (name : String) (pid : Nat) (c : Int) (nm : String)
    (s : SupSt) (spawn : Nat → Handle) :
    (0 < c → 0 < s.max_restarts →
      outBudget (start_processes_body spawn ⟨name, some ⟨pid, some c⟩⟩ s) =
          s.max_restarts - 1 ∧
        outRestarts (start_processes_body spawn ⟨name, some ⟨pid, some c⟩⟩ s) =
          s.restarts + 1) ∧
    (c < 0 → signal_name c.natAbs = some nm → 0 < s.max_restarts →
      outBudget (start_processes_body spawn ⟨name, some ⟨pid, some c⟩⟩ s) =
          s.max_restarts - 1 ∧
        outRestarts (start_processes_body spawn ⟨name, some ⟨pid, some c⟩⟩ s) =
          s.restarts + 1) ∧
    (c = 0 →
      outBudget (start_processes_body spawn ⟨name, some ⟨pid, some c⟩⟩ s) =
          s.max_restarts ∧
        outRestarts (start_processes_body spawn ⟨name, some ⟨pid, some c⟩⟩ s) =
          s.restarts + 1) ∧
    (outBudget (start_processes_tick (fun k => ⟨30 + k, none⟩)
        [⟨"a", some ⟨1, some 1⟩⟩, ⟨"b", some ⟨2, some 1⟩⟩] ⟨2, 0, 0, []⟩) = 0 ∧
      outRestarts (start_processes_tick (fun k => ⟨30 + k, none⟩)
        [⟨"a", some ⟨1, some 1⟩⟩, ⟨"b", some ⟨2, some 1⟩⟩] ⟨2, 0, 0, []⟩) = 2) := by
  refine ⟨?_, ?_, ?_, by decide⟩
  · intro hc hpos
    rw [body_pos_exit name pid c s spawn hc (by omega)]
    simp [outBudget, outRestarts, if_pos hpos]
  · intro hc hsig hpos
    rw [body_neg_exit name pid c nm s spawn hc hsig (by omega)]
    simp [outBudget, outRestarts, if_pos hpos]
  · intro hc
    subst hc
    rw [body_clean_exit name pid s spawn]
    exact ⟨rfl, rfl⟩

/-- Witness for C3's amended theorem: a signaled worker (code -9,
`signal_name 9 = some "SIGKILL"`) under budget 3 is restarted with the
budget decremented to 2, and a cleanly exited worker under budget 3 is
restarted with the budget kept at 3. -/
theorem c3_shared_budget_witness :
    (outBudget (start_processes_body (fun k => ⟨40 + k, none⟩) ⟨"x", some ⟨8, some (-9)⟩⟩
        ⟨3, 0, 0, []⟩) = 2 ∧
      outRestarts (start_processes_body (fun k => ⟨40 + k, none⟩) ⟨"x", some ⟨8, some (-9)⟩⟩
        ⟨3, 0, 0, []⟩) = 1) ∧
    (outBudget (start_processes_body (fun k => ⟨40 + k, none⟩) ⟨"x", some ⟨8, some 0⟩⟩
        ⟨3, 0, 0, []⟩) = 3 ∧
      outRestarts (start_processes_body (fun k => ⟨40 + k, none⟩) ⟨"x", some ⟨8, some 0⟩⟩
        ⟨3, 0, 0, []⟩) = 1) := by
  have h1 := (c3_shared_budget "x" 8 (-9) "SIGKILL" ⟨3, 0, 0, []⟩
    (fun k => ⟨40 + k, none⟩)).2.1 (by decide) (by decide) (by decide)
  have h2 := (c3_shared_budget "x" 8 0 "SIGKILL" ⟨3, 0, 0, []⟩
    (fun k => ⟨40 + k, none⟩)).2.2.1 rfl
  constructor
  · simpa using h1
  · simpa using h2

/-- C5: calling `start()` on a worker that `is_alive()` raises the
`ProcessError` "already started" failure and leaves the stored handle
unchanged — for `shelter.core.processes.Worker.start` and for
`shelter.commands.runserver.ProcessWrapper.start` alike (no new handle is
created and no readiness wait is entered). -/
theorem c5_double_start (w : Worker) (h1 : Handle) (ready1 : Nat → Bool)
    (wur : Bool) (timeout : Option Nat) (fuel1 : Nat)
    (pw : ProcessWrapper) (h2 : Handle) (ready2 : Nat → Bool) (fuel2 : Nat) :
    (w.is_alive = true →
      w.start h1 ready1 wur timeout fuel1 = (.processErrorRunning, w)) ∧
    (pw.is_alive = true →
      pw.start h2 ready2 fuel2 = (.processErrorRunning, pw, false)) := by
  constructor
  · intro hal
    simp [Worker.start, hal]
  · intro hal
    simp [ProcessWrapper.start, hal]

/-- Witness for C5: an alive worker and an alive wrapper are left
untouched by a second `start()`. -/
theorem c5_double_start_witness :
    (Worker.start ⟨"w", some ⟨1, none⟩⟩ ⟨9, none⟩ (fun _ => true) true none 0 =
      (.processErrorRunning, ⟨"w", some ⟨1, none⟩⟩)) ∧
    (ProcessWrapper.start ⟨some ⟨2, none⟩, true, none, "p"⟩ ⟨9, none⟩ (fun _ => true) 0 =
      (.processErrorRunning, ⟨some ⟨2, none⟩, true, none, "p"⟩, false)) := by
  have hth := c5_double_start ⟨"w", some ⟨1, none⟩⟩ ⟨9, none⟩ (fun _ => true) true none 0
    ⟨some ⟨2, none⟩, true, none, "p"⟩ ⟨9, none⟩ (fun _ => true) 0
  exact ⟨hth.1 (by decide), hth.2 (by decide)⟩

lemma bpStep_ready_mono (sep : Bool) (i : Nat) (st : BPState) (inp : BPInput)
    (h : st.ready = true) : (bpStep sep i st inp).ready = true := by
  unfold bpStep
  split_ifs <;> simp_all

lemma bpRun_ready_mono (sep : Bool) (i : Nat) :
    ∀ (tr : List BPInput) (st : BPState), st.ready = true →
      (bpRun sep i st tr).ready = true := by
  intro tr
  induction tr with
  | nil =>
    intro st h
    exact h
  | cons a t ih =>
    intro st h
    exact ih _ (bpStep_ready_mono sep i st a h)

/-- C6: the readiness flag of an execution handle is initially false
(`BaseProcess.__init__` and `TornadoProcess.__init__`), every step of the
worker-side run loop preserves it once true (it is only ever set, never
reset), so after any further trace the supervisor-side read returns
true. -/
theorem c6_ready_flag (creator : Nat) (sep : Bool) (interval : Nat)
    (st : BPState) (inp : BPInput) (trace : List BPInput)
    (tst : TPState) (e : TPEvent) :
    (bpInit creator).ready = false ∧
    (tpInit creator).ready = false ∧
    (st.ready = true → (bpStep sep interval st inp).ready = true) ∧
    (st.ready = true → bpReadyRead (bpRun sep interval st trace) = true) ∧
    (tst.ready = true → (tpStep tst e).ready = true) := by
  refine ⟨rfl, rfl, bpStep_ready_mono sep interval st inp,
    fun h => bpRun_ready_mono sep interval trace st h, ?_⟩
  intro h
  cases e with
  | readyCallback => simp [tpStep]
  | checkParent p =>
    simp only [tpStep]
    split_ifs <;> simp [tpStop, h]
  | sigint => simpa [tpStep, tpStop]

/-- Witness for C6: a concrete ready state stays ready through a step, a
trace, and a tornado event, and the fresh states start not ready. -/
theorem c6_ready_flag_witness :
    (bpInit 1).ready = false ∧
    (tpInit 1).ready = false ∧
    (bpStep true 0 ⟨1, true, 0, false⟩ ⟨1, 5⟩).ready = true ∧
    bpReadyRead (bpRun true 0 ⟨1, true, 0, false⟩ [⟨1, 6⟩]) = true ∧
    (tpStep ⟨1, true, true⟩ .sigint).ready = true := by
  have hth := c6_ready_flag 1 true 0 ⟨1, true, 0, false⟩ ⟨1, 5⟩ [⟨1, 6⟩] ⟨1, true, true⟩ .sigint
  exact ⟨hth.1, hth.2.1, hth.2.2.1 rfl, hth.2.2.2.1 rfl, hth.2.2.2.2 rfl⟩

/-- C8: on any watchdog tick of a process-strategy worker where the live
parent pid differs from the parent pid recorded at handle creation, the
worker leaves its run loop and its exit status is 0 — for the
`BaseProcess.run` while-loop check and for the `TornadoProcess`
`check_parent_callback` alike. -/
theorem c8_orphan_detection (interval : Nat) (st : BPState) (inp : BPInput)
    (tst : TPState) (p : Nat) :
    (st.stopped = false → inp.ppid ≠ st.parent_pid →
      (bpStep true interval st inp).stopped = true ∧
        bpExitStatus (bpStep true interval st inp) = some 0) ∧
    (p ≠ tst.parent_pid →
      (tpStep tst (.checkParent p)).ioloop_running = false ∧
        tpExitStatus (tpStep tst (.checkParent p)) = some 0) := by
  constructor
  · intro hs hp
    simp [bpStep, bpExitStatus, hs, hp]
  · intro hp
    simp [tpStep, tpStop, tpExitStatus, hp]

/-- Witness for C8: a worker recorded under parent 5 observing parent 6
stops with exit status 0, in both models. -/
theorem c8_orphan_detection_witness :
    ((bpStep true 0 ⟨5, false, 0, false⟩ ⟨6, 0⟩).stopped = true ∧
      bpExitStatus (bpStep true 0 ⟨5, false, 0, false⟩ ⟨6, 0⟩) = some 0) ∧
    ((tpStep ⟨5, false, true⟩ (.checkParent 6)).ioloop_running = false ∧
      tpExitStatus (tpStep ⟨5, false, true⟩ (.checkParent 6)) = some 0) := by
  have hth := c8_orphan_detection 0 ⟨5, false, 0, false⟩ ⟨6, 0⟩ ⟨5, false, true⟩ 6
  exact ⟨hth.1 rfl (by decide), hth.2 (by decide)⟩

lemma unboundedWait_ne_timeout (ready : Nat → Bool) :
    ∀ (fuel i : Nat), unboundedWait ready i fuel ≠ .processErrorTimeout := by
  intro fuel
  induction fuel with
  | zero =>
    intro i
    simp [unboundedWait]
  | succ n ih =>
    intro i
    by_cases hri : ready i
    · simp [unboundedWait, hri]
    · simp [unboundedWait, hri]
      exact ih (i + 1)

lemma unboundedWait_never_ready (ready : Nat → Bool) (hr : ∀ i, ready i = false) :
    ∀ (fuel i : Nat), unboundedWait ready i fuel = .stillWaiting := by
  intro fuel
  induction fuel with
  | zero =>
    intro i
    rfl
  | succ n ih =>
    intro i
    simp [unboundedWait, hr i, ih (i + 1)]

lemma boundedWait_never_ready (ready : Nat → Bool) (hr : ∀ i, ready i = false) :
    ∀ (t i : Nat), boundedWait ready i t = .processErrorTimeout := by
  intro t
  induction t with
  | zero =>
    intro i
    simp [boundedWait, hr i]
  | succ n ih =>
    intro i
    simp [boundedWait, hr i, ih (i + 1)]

/-- C7: `Worker.start` with `wait_unless_ready` and a truthy timeout
raises the `ProcessError` timeout failure when the window elapses with
the readiness flag still false; with no timeout it never raises the
timeout failure and, while the flag stays false, is still blocked in the
wait for every observation fuel. -/
theorem c7_start_timeout (w : Worker) (h : Handle) (ready : Nat → Bool) (t fuel : Nat) :
    (w.is_alive = false → t ≠ 0 → (∀ i, ready i = false) →
      w.start h ready true (some t) fuel =
        (.processErrorTimeout, { w with process := some h })) ∧
    (∀ fl : Nat, (w.start h ready true none fl).1 ≠ .processErrorTimeout) ∧
    (w.is_alive = false → (∀ i, ready i = false) →
      w.start h ready true none fuel =
        (.stillWaiting, { w with process := some h })) := by
  refine ⟨?_, ?_, ?_⟩
  · intro hal hne hr
    have htt : timeoutTruthy (some t) = true := by
      simp [timeoutTruthy, hne]
    simp [Worker.start, hal, waitPhase, htt, boundedWait_never_ready ready hr t 0]
  · intro fl
    by_cases hal : w.is_alive
    · simp [Worker.start, hal]
    · simp [Worker.start, hal, waitPhase, timeoutTruthy]
      exact unboundedWait_ne_timeout ready fl 0
  · intro hal hr
    simp [Worker.start, hal, waitPhase, timeoutTruthy,
      unboundedWait_never_ready ready hr fuel 0]

/-- Witness for C7: a never-ready factory target under timeout 2 raises
the timeout failure; with no timeout the same start is still waiting
after 9 polls. -/
theorem c7_start_timeout_witness :
    (Worker.start ⟨"s", none⟩ ⟨3, none⟩ (fun _ => false) true (some 2) 9 =
      (.processErrorTimeout, ⟨"s", some ⟨3, none⟩⟩)) ∧
    (Worker.start ⟨"s", none⟩ ⟨3, none⟩ (fun _ => false) true none 9 =
      (.stillWaiting, ⟨"s", some ⟨3, none⟩⟩)) := by
  have hth := c7_start_timeout ⟨"s", none⟩ ⟨3, none⟩ (fun _ => false) 2 9
  exact ⟨hth.1 (by decide) (by decide) (fun i => rfl),
         hth.2.2 (by decide) (fun i => rfl)⟩

/-- C10: `Worker.start` with `wait_unless_ready` and `timeout = 0`
behaves exactly as with an absent timeout (`if timeout:` is falsy for
both) and in particular never raises the timeout failure. -/
theorem c10_zero_timeout (w : Worker) (h : Handle) (ready : Nat → Bool) (fuel : Nat) :
    w.start h ready true (some 0) fuel = w.start h ready true none fuel ∧
    (w.start h ready true (some 0) fuel).1 ≠ .processErrorTimeout := by
  constructor
  · rfl
  · by_cases hal : w.is_alive
    · simp [Worker.start, hal]
    · simp [Worker.start, hal, waitPhase, timeoutTruthy]
      exact unboundedWait_ne_timeout ready fuel 0

/-- C9 counterexample: the claim says a supervisor-loop start call
returns without waiting for readiness also for a never-started worker;
but `ProcessWrapper.start` on a never-started wrapper configured with
`wait_unless_ready` enters the readiness-wait block (third component
true) and, with no timeout and a never-ready target, is still blocked
after 5 polls instead of returning. -/
theorem c9_loop_start_counterexample :
    (ProcessWrapper.start ⟨none, true, none, "w"⟩ ⟨1, none⟩ (fun _ => false) 5).2.2 = true ∧
    (ProcessWrapper.start ⟨none, true, none, "w"⟩ ⟨1, none⟩ (fun _ => false) 5).1 =
      .stillWaiting := by
  decide

/-- C9 amended: a supervisor-loop start call on a worker that has
already started (the restart path, `first_run = False`) returns without
any readiness wait; only the first start of a never-started worker enters
the readiness wait, when configured with `wait_unless_ready`. -/
theorem c9_restart_no_wait (pw : ProcessWrapper) (h : Handle) (ready : Nat → Bool)
    (fuel : Nat) :
    (pw.is_alive = false → pw.has_started = true →
      pw.start h ready fuel = (.ok, { pw with process := some h }, false)) ∧
    (pw.has_started = false → pw.wait_unless_ready = true →
      (pw.start h ready fuel).2.2 = true) := by
  constructor
  · intro hal hst
    simp [ProcessWrapper.start, hal, hst]
  · intro hst hwur
    have hpn : pw.process = none := by
      cases hp : pw.process with
      | none => rfl
      | some v => simp [ProcessWrapper.has_started, hp] at hst
    simp [ProcessWrapper.start, ProcessWrapper.is_alive, ProcessWrapper.has_started,
      hpn, hwur]

/-- Witness for C9's amended theorem: a restarted wrapper starts with no
readiness wait; a fresh wrapper with `wait_unless_ready` enters the
wait. -/
theorem c9_restart_no_wait_witness :
    (ProcessWrapper.start ⟨some ⟨1, some 0⟩, true, none, "w"⟩ ⟨2, none⟩ (fun _ => false) 0 =
      (.ok, ⟨some ⟨2, none⟩, true, none, "w"⟩, false)) ∧
    (ProcessWrapper.start ⟨none, true, none, "v"⟩ ⟨2, none⟩ (fun _ => false) 0).2.2 =
      true := by
  have h1 := (c9_restart_no_wait ⟨some ⟨1, some 0⟩, true, none, "w"⟩ ⟨2, none⟩
    (fun _ => false) 0).1 (by decide) (by decide)
  have h2 := (c9_restart_no_wait ⟨none, true, none, "v"⟩ ⟨2, none⟩
    (fun _ => false) 0).2 (by decide) (by decide)
  exact ⟨h1, h2⟩

end Shelter
